import Mathlib

/-!
Verification of `tensorlayer/dataflow/tensorflow_data.py`.

The module is a thin adaptation layer over the external engine's
(`tf.data`) dataset pipeline: each public function builds a declarative
pipeline node and performs no execution itself.  We embed the pipeline
graph the external engine owns as an inductive type `TFDataset`, whose
constructors are the engine's primitives (`from_generator`,
`from_tensor_slices`, `batch`, `concatenate`, `map`, `repeat`, `shuffle`,
`zip`, `prefetch`).  Opaque Python payloads (generator callables, tensors,
map functions, dtypes) are identified by natural numbers.

The module's public functions are then translated line by line from the
source.  A second, heap-passing translation (`Heap`, the `...H`
functions) makes object identity and mutation observable, for the
frame-effect claims: every engine primitive allocates a fresh object, and
the functions pass object identifiers around exactly as the Python code
passes references.
-/

/-- A node of the external engine's declarative pipeline graph
(`tf.data.Dataset`).  Every constructor is one engine primitive; opaque
Python values (generators, tensors, functions, dtypes) are numbered. -/
inductive TFDataset where
  | fromGenerator (generator : Nat) (output_types : List Nat)
  | fromTensorSlices (datas : Nat)
  | batch (dataset : TFDataset) (batch_size : Int) (drop_remainder : Bool)
  | concatenate (dataset other : TFDataset)
  | map (dataset : TFDataset) (map_func : Nat)
  | repeatCount (dataset : TFDataset) (count : Option Int)
  | shuffle (dataset : TFDataset) (buffer_size : Int) (seed : Option Int)
      (reshuffle_each_iteration : Bool)
  | zip (datasets : List TFDataset)
  | prefetch (dataset : TFDataset) (buffer_size : Int)

instance : Inhabited TFDataset :=
  ⟨TFDataset.fromTensorSlices 0⟩

/-- The sentinel `tf.data.experimental.AUTOTUNE`. -/
def AUTOTUNE : Int := -1

/-- Errors raised by this module itself (as opposed to errors of the
external engine).  The only ones in the source are the
`NotImplementedError` raised by the abstract-class method stubs. -/
inductive ModuleError where
  | notImplementedError (method : String) (className : String)
deriving DecidableEq

/-- The message the stubs format:
`"\x27\x7b\x7d\x27 not implement in class \x7b\x7d".format(method, class name)`. -/
def notImplementMessage (method className : String) : String :=
  "\x27" ++ method ++ "\x27 not implement in class " ++ className

/-- The abstract map-style base class `Dataset`.  An instance is reduced
to what the stub methods can observe: its class name. -/
structure Dataset where
  className : String
deriving DecidableEq

/-- Source `Dataset.__call__`: `return self`. -/
def Dataset.call (self : Dataset) : Dataset :=
  self

/-- Source `Dataset.__getitem__`: raises `NotImplementedError`. -/
def Dataset.getitem (self : Dataset) (idx : Nat) : Except ModuleError Nat :=
  Except.error (ModuleError.notImplementedError "__getitem__" self.className)

/-- Source `Dataset.__len__`: raises `NotImplementedError`. -/
def Dataset.len (self : Dataset) : Except ModuleError Nat :=
  Except.error (ModuleError.notImplementedError "__len__" self.className)

/-- The abstract iterable-style base class `IterableDataset`. -/
structure IterableDataset where
  className : String
deriving DecidableEq

/-- Source `IterableDataset.__call__`: `return self`. -/
def IterableDataset.call (self : IterableDataset) : IterableDataset :=
  self

/-- Source `IterableDataset.__iter__`: raises `NotImplementedError`. -/
def IterableDataset.iter (self : IterableDataset) : Except ModuleError (List Nat) :=
  Except.error (ModuleError.notImplementedError "__iter__" self.className)

/-- Source `FromGenerator`: converts `output_types` to a tuple (identity
on the element list) and forwards to `tf.data.Dataset.from_generator`.
`column_names` is accepted and never used. -/
def FromGenerator (generator : Nat) (output_types : List Nat)
    (column_names : Option (List Nat)) : TFDataset :=
  let output_types := output_types
  TFDataset.fromGenerator generator output_types

/-- Source `Batch`: forwards to `dataset.batch(batch_size, drop_remainder=drop_last)`. -/
def Batch (dataset : TFDataset) (batch_size : Int) (drop_last : Bool) : TFDataset :=
  TFDataset.batch dataset batch_size drop_last

/-- Source `Concat`, translated faithfully: the loop body
`dataset.concatenate(datasets[i])` computes a concatenation node and
discards it (the loop variable `dataset` is never reassigned), so the
function returns `datasets[0]`. -/
def Concat (datasets : List TFDataset) : TFDataset :=
  let dataset_num := datasets.length
  let dataset := datasets.getD 0 default
  let dataset := (List.range' 1 (dataset_num - 1)).foldl
    (fun d i =>
      let _discarded := TFDataset.concatenate d (datasets.getD i default)
      d) dataset
  dataset

/-- Modelled from the spec: the concatenation `Concat` is described to
compute — concatenating `d2` through `dn` onto `d1` via the engine's
concatenate primitive, in list order. -/
def ConcatSpecified (datasets : List TFDataset) : TFDataset :=
  (datasets.drop 1).foldl TFDataset.concatenate (datasets.getD 0 default)

/-- Source `FromSlices`: forwards to `tf.data.Dataset.from_tensor_slices`.
`column_names` is accepted and never used. -/
def FromSlices (datas : Nat) (column_names : Option (List Nat)) : TFDataset :=
  TFDataset.fromTensorSlices datas

/-- Source `Map`: forwards to `dataset.map(map_func)`.  `input_columns`
is accepted and never used. -/
def Map (dataset : TFDataset) (map_func : Nat)
    (input_columns : Option (List Nat)) : TFDataset :=
  TFDataset.map dataset map_func

/-- Source `Repeat`: forwards to `dataset.repeat(count=count)`. -/
def Repeat (dataset : TFDataset) (count : Option Int) : TFDataset :=
  TFDataset.repeatCount dataset count

/-- Source `Shuffle`: forwards to
`dataset.shuffle(buffer_size, seed=None, reshuffle_each_iteration=True)`. -/
def Shuffle (dataset : TFDataset) (buffer_size : Int) : TFDataset :=
  TFDataset.shuffle dataset buffer_size none true

/-- Source `Zip`: forwards to `tf.data.Dataset.zip(datasets)`. -/
def Zip (datasets : List TFDataset) : TFDataset :=
  TFDataset.zip datasets

/-- Source `Dataloader`: optionally shuffles, then batches, then
prefetches with `AUTOTUNE`, rebinding the local `dataset` at each step. -/
def Dataloader (dataset : TFDataset) (batch_size : Int) (shuffle : Bool)
    (drop_last : Bool) (shuffle_buffer_size : Int) : TFDataset :=
  let dataset := if shuffle then Shuffle dataset shuffle_buffer_size else dataset
  let dataset := Batch dataset batch_size drop_last
  let dataset := TFDataset.prefetch dataset AUTOTUNE
  dataset

/-! ## Heap-passing translation

To talk about object identity and mutation we repeat the translation in
state-passing style.  The heap holds every pipeline object the engine
has created; an object is named by the index at which it was allocated.
Every engine primitive allocates a fresh object and leaves existing
cells untouched, which is exactly the contract of `tf.data`: its
transformations return new datasets and never modify their receiver.
The module's functions (`...H` below) thread the heap and pass object
identifiers exactly as the Python code passes references. -/

/-- An object identifier: the heap index of a pipeline object. -/
abbrev ObjId := Nat

/-- The heap of pipeline objects created by the engine so far. -/
structure Heap where
  objects : List TFDataset
deriving Inhabited

/-- Dereference an object identifier. -/
def Heap.read (h : Heap) (i : ObjId) : TFDataset :=
  h.objects.getD i default

/-- Allocate a fresh pipeline object (what each engine primitive does)
and return its identifier. -/
def Heap.alloc (h : Heap) (d : TFDataset) : Heap × ObjId :=
  (⟨h.objects ++ [d]⟩, h.objects.length)

/-- Heap-passing `FromGenerator`. -/
def FromGeneratorH (h : Heap) (generator : Nat) (output_types : List Nat)
    (column_names : Option (List Nat)) : Heap × ObjId :=
  let output_types := output_types
  h.alloc (TFDataset.fromGenerator generator output_types)

/-- Heap-passing `Batch`. -/
def BatchH (h : Heap) (dataset : ObjId) (batch_size : Int) (drop_last : Bool) :
    Heap × ObjId :=
  h.alloc (TFDataset.batch (h.read dataset) batch_size drop_last)

/-- Heap-passing `Concat`: each loop iteration allocates the node
`dataset.concatenate(datasets[i])` and discards its identifier; the
returned identifier is `datasets[0]` — an input object, not a fresh
one. -/
def ConcatH (h : Heap) (datasets : List ObjId) : Heap × ObjId :=
  let dataset_num := datasets.length
  let dataset := datasets.getD 0 0
  let h := (List.range' 1 (dataset_num - 1)).foldl
    (fun hh i =>
      (hh.alloc (TFDataset.concatenate (hh.read dataset)
        (hh.read (datasets.getD i 0)))).1) h
  (h, dataset)

/-- Heap-passing `FromSlices`. -/
def FromSlicesH (h : Heap) (datas : Nat) (column_names : Option (List Nat)) :
    Heap × ObjId :=
  h.alloc (TFDataset.fromTensorSlices datas)

/-- Heap-passing `Map`. -/
def MapH (h : Heap) (dataset : ObjId) (map_func : Nat)
    (input_columns : Option (List Nat)) : Heap × ObjId :=
  h.alloc (TFDataset.map (h.read dataset) map_func)

/-- Heap-passing `Repeat`. -/
def RepeatH (h : Heap) (dataset : ObjId) (count : Option Int) : Heap × ObjId :=
  h.alloc (TFDataset.repeatCount (h.read dataset) count)

/-- Heap-passing `Shuffle`. -/
def ShuffleH (h : Heap) (dataset : ObjId) (buffer_size : Int) : Heap × ObjId :=
  h.alloc (TFDataset.shuffle (h.read dataset) buffer_size none true)

/-- Heap-passing `Zip`. -/
def ZipH (h : Heap) (datasets : List ObjId) : Heap × ObjId :=
  h.alloc (TFDataset.zip (datasets.map h.read))

/-- Heap-passing `Dataloader`. -/
def DataloaderH (h : Heap) (dataset : ObjId) (batch_size : Int)
    (shuffle : Bool) (drop_last : Bool) (shuffle_buffer_size : Int) :
    Heap × ObjId :=
  let (h, dataset) :=
    if shuffle then ShuffleH h dataset shuffle_buffer_size else (h, dataset)
  let (h, dataset) := BatchH h dataset batch_size drop_last
  let (h, dataset) := h.alloc (TFDataset.prefetch (h.read dataset) AUTOTUNE)
  (h, dataset)

/-- `h'` extends `h`: every object of `h` is still present, unchanged,
at its identifier; the heap has only grown. -/
def heapExtends (h h' : Heap) : Prop :=
  h.objects.length ≤ h'.objects.length ∧
    ∀ i : ObjId, i < h.objects.length → h'.read i = h.read i

theorem heapExtends_refl (h : Heap) : heapExtends h h :=
  ⟨le_refl _, fun _ _ => rfl⟩

theorem heapExtends_trans {h1 h2 h3 : Heap} (a : heapExtends h1 h2)
    (b : heapExtends h2 h3) : heapExtends h1 h3 :=
  ⟨le_trans a.1 b.1, fun i hi => (b.2 i (lt_of_lt_of_le hi a.1)).trans (a.2 i hi)⟩

theorem alloc_extends (h : Heap) (d : TFDataset) :
    heapExtends h (h.alloc d).1 := by
  refine ⟨by simp [Heap.alloc], fun i hi => ?_⟩
  simp only [Heap.alloc, Heap.read, List.getD_eq_getElem?_getD]
  rw [List.getElem?_append, if_pos hi]

theorem alloc_fresh (h : Heap) (d : TFDataset) :
    (h.alloc d).2 = h.objects.length :=
  rfl

theorem foldl_alloc_extends {α : Type} (f : Heap → α → Heap)
    (step : ∀ hh a, heapExtends hh (f hh a)) :
    ∀ (l : List α) (h : Heap), heapExtends h (l.foldl f h) := by
  intro l
  induction l with
  | nil => intro h; exact heapExtends_refl h
  | cons a l ih =>
    intro h
    exact heapExtends_trans (step h a) (ih (f h a))

/-- Two concrete engine datasets used to evaluate the operations. -/
def dA : TFDataset := TFDataset.fromTensorSlices 1

/-- A second concrete engine dataset, distinct from `dA`. -/
def dB : TFDataset := TFDataset.fromTensorSlices 2

/-- A concrete heap holding `dA` at identifier 0 and `dB` at identifier 1. -/
def hAB : Heap := ⟨[dA, dB]⟩

/-- A fold whose body computes a value, discards it, and returns the
accumulator unchanged leaves the initial value untouched — the shape of
the loop in `Concat`. -/
theorem foldl_discard (f : TFDataset → Nat → TFDataset) :
    ∀ (l : List Nat) (a : TFDataset),
      l.foldl (fun d i => let _discarded := f d i; d) a = a := by
  intro l
  induction l with
  | nil => intro a; rfl
  | cons x l ih => intro a; exact ih a

/-- `Concat` returns its first dataset unchanged, whatever the list. -/
theorem concat_returns_first (datasets : List TFDataset) :
    Concat datasets = datasets.getD 0 default :=
  foldl_discard (fun d i => TFDataset.concatenate d (datasets.getD i default))
    (List.range' 1 (datasets.length - 1)) (datasets.getD 0 default)

/-- C1: the claim says `Concat` returns the sequential concatenation of
all datasets via the engine's concatenate primitive.  The code instead
discards every `concatenate` result (line 177 never reassigns the loop
variable) and returns `datasets[0]`: on `[dA, dB]` it returns `dA`,
while the concatenation described by the spec (and by the function's own
docstring) is `dA.concatenate(dB)`. -/
theorem Concat_discards_concatenation :
    (∀ datasets : List TFDataset, Concat datasets = datasets.getD 0 default) ∧
    Concat [dA, dB] = dA ∧
    ConcatSpecified [dA, dB] = TFDataset.concatenate dA dB ∧
    Concat [dA, dB] ≠ ConcatSpecified [dA, dB] := by
  refine ⟨concat_returns_first, rfl, rfl, fun hcontra => ?_⟩
  rw [concat_returns_first] at hcontra
  exact TFDataset.noConfusion hcontra

/-- C2: `Dataloader` is the composition of the module's own stages —
with shuffling, prefetch of the batch of the shuffle; without, prefetch
of the batch, no shuffle stage. -/
theorem Dataloader_composes_stages :
    ∀ (dataset : TFDataset) (batch_size : Int) (shuffle drop_last : Bool)
      (shuffle_buffer_size : Int),
      Dataloader dataset batch_size shuffle drop_last shuffle_buffer_size =
        if shuffle then
          TFDataset.prefetch
            (Batch (Shuffle dataset shuffle_buffer_size) batch_size drop_last)
            AUTOTUNE
        else
          TFDataset.prefetch (Batch dataset batch_size drop_last) AUTOTUNE := by
  intro dataset batch_size shuffle drop_last shuffle_buffer_size
  cases shuffle <;> rfl

/-- C3: the claim says every public passthrough operation is a single
forwarding call to the engine's equivalent primitive.  Seven of the
eight are; `Concat` is not: it returns `dA` on `[dA, dB]`, not the
engine's `concatenate` node, because the loop discards every
`concatenate` result. -/
theorem passthrough_forwarding_except_Concat :
    (∀ (generator : Nat) (output_types : List Nat)
        (column_names : Option (List Nat)),
        FromGenerator generator output_types column_names =
          TFDataset.fromGenerator generator output_types) ∧
    (∀ (datas : Nat) (column_names : Option (List Nat)),
        FromSlices datas column_names = TFDataset.fromTensorSlices datas) ∧
    (∀ (dataset : TFDataset) (batch_size : Int) (drop_last : Bool),
        Batch dataset batch_size drop_last =
          TFDataset.batch dataset batch_size drop_last) ∧
    (∀ (dataset : TFDataset) (map_func : Nat)
        (input_columns : Option (List Nat)),
        Map dataset map_func input_columns = TFDataset.map dataset map_func) ∧
    (∀ (dataset : TFDataset) (count : Option Int),
        Repeat dataset count = TFDataset.repeatCount dataset count) ∧
    (∀ (dataset : TFDataset) (buffer_size : Int),
        Shuffle dataset buffer_size =
          TFDataset.shuffle dataset buffer_size none true) ∧
    (∀ datasets : List TFDataset, Zip datasets = TFDataset.zip datasets) ∧
    Concat [dA, dB] = dA ∧
    Concat [dA, dB] ≠ TFDataset.concatenate dA dB := by
  refine ⟨fun _ _ _ => rfl, fun _ _ => rfl, fun _ _ _ => rfl, fun _ _ _ => rfl,
    fun _ _ => rfl, fun _ _ => rfl, fun _ => rfl, rfl, fun hcontra => ?_⟩
  rw [concat_returns_first] at hcontra
  exact TFDataset.noConfusion hcontra

/-- C4 counterexample: the module does raise an error of its own making,
with a message of its own: indexing the abstract `Dataset` base class
raises the module-defined `NotImplementedError` with the module's
formatted message, before any framework primitive is involved. -/
theorem Dataset_getitem_raises_module_error :
    Dataset.getitem ⟨"Dataset"⟩ 0 =
      Except.error (ModuleError.notImplementedError "__getitem__" "Dataset") ∧
    notImplementMessage "__getitem__" "Dataset" =
      "\x27__getitem__\x27 not implement in class Dataset" :=
  ⟨rfl, rfl⟩

/-- C4 amended: the only errors of the module's own making are the
`NotImplementedError` values raised by the abstract base-class stubs
`Dataset.__getitem__`, `Dataset.__len__` and `IterableDataset.__iter__`;
the pipeline functions themselves construct engine nodes and raise
nothing, so any error they surface is the external framework's. -/
theorem module_errors_are_abstract_stubs :
    (∀ (d : Dataset) (idx : Nat),
        Dataset.getitem d idx =
          Except.error
            (ModuleError.notImplementedError "__getitem__" d.className)) ∧
    (∀ d : Dataset,
        Dataset.len d =
          Except.error
            (ModuleError.notImplementedError "__len__" d.className)) ∧
    (∀ it : IterableDataset,
        IterableDataset.iter it =
          Except.error
            (ModuleError.notImplementedError "__iter__" it.className)) ∧
    (∀ (dataset : TFDataset) (batch_size : Int) (drop_last : Bool),
        Batch dataset batch_size drop_last =
          TFDataset.batch dataset batch_size drop_last) :=
  ⟨fun _ _ => rfl, fun _ => rfl, fun _ => rfl, fun _ _ _ => rfl⟩

/-- C7: calling an instance of either abstract base class returns the
very same object: `__call__` is `return self` in both classes. -/
theorem call_is_identity :
    (∀ d : Dataset, Dataset.call d = d) ∧
    (∀ it : IterableDataset, IterableDataset.call it = it) :=
  ⟨fun _ => rfl, fun _ => rfl⟩

/-- C8: `Shuffle` always forwards with `seed=None` and
`reshuffle_each_iteration=True`, for every dataset and buffer size. -/
theorem Shuffle_unseeded_reshuffles :
    ∀ (dataset : TFDataset) (buffer_size : Int),
      Shuffle dataset buffer_size =
        TFDataset.shuffle dataset buffer_size none true :=
  fun _ _ => rfl

/-- C9: the column-selection parameters are dead in this backend: two
calls differing only in `column_names` (for `FromGenerator` and
`FromSlices`) or only in `input_columns` (for `Map`) return equal
results. -/
theorem column_parameters_ignored :
    (∀ (generator : Nat) (output_types : List Nat)
        (c1 c2 : Option (List Nat)),
        FromGenerator generator output_types c1 =
          FromGenerator generator output_types c2) ∧
    (∀ (datas : Nat) (c1 c2 : Option (List Nat)),
        FromSlices datas c1 = FromSlices datas c2) ∧
    (∀ (dataset : TFDataset) (map_func : Nat)
        (i1 i2 : Option (List Nat)),
        Map dataset map_func i1 = Map dataset map_func i2) :=
  ⟨fun _ _ _ _ => rfl, fun _ _ _ => rfl, fun _ _ _ _ => rfl⟩

/-- C6 counterexample: an invalid trivial argument is not rejected by
the module: `Batch` with the invalid batch size `-1` forwards it to the
engine unchecked instead of rejecting it. -/
theorem Batch_forwards_invalid_batch_size :
    Batch dA (-1) false = TFDataset.batch dA (-1) false :=
  rfl

/-- C6 amended: the public functions perform no argument validation at
all: every argument, even an invalid one such as a non-positive batch
size, is forwarded to the external engine unchecked; the only argument
processing anywhere is `FromGenerator` converting `output_types` to a
tuple. -/
theorem no_argument_validation (dataset : TFDataset) (batch_size : Int)
    (drop_last : Bool) (generator : Nat) (output_types : List Nat)
    (column_names : Option (List Nat)) (hinvalid : batch_size ≤ 0) :
    Batch dataset batch_size drop_last =
      TFDataset.batch dataset batch_size drop_last ∧
    FromGenerator generator output_types column_names =
      TFDataset.fromGenerator generator output_types :=
  ⟨rfl, rfl⟩

/-- C6 amended, witness: the invalid batch size `-1` reaches the engine. -/
theorem no_argument_validation_witness :
    (-1 : Int) ≤ 0 ∧
    (Batch dA (-1) false = TFDataset.batch dA (-1) false ∧
      FromGenerator 7 [3] none = TFDataset.fromGenerator 7 [3]) :=
  ⟨by decide, no_argument_validation dA (-1) false 7 [3] none (by decide)⟩

/-- A heap extended by appending freshly allocated objects keeps every
existing object unchanged at its identifier. -/
theorem append_heapExtends (h : Heap) (l : List TFDataset) :
    heapExtends h ⟨h.objects ++ l⟩ := by
  refine ⟨by simp, fun i hi => ?_⟩
  simp only [Heap.read, List.getD_eq_getElem?_getD]
  rw [List.getElem?_append, if_pos hi]

/-- C5 counterexample: the result of an operation is not always a newly
constructed pipeline object: on the heap holding inputs `dA` (object 0)
and `dB` (object 1), `Concat` returns object 0 — an input object, whose
identifier is below the pre-call heap size — while the discarded
concatenate node it allocated did grow the heap to three objects. -/
theorem ConcatH_returns_input_object :
    (ConcatH hAB [0, 1]).2 = 0 ∧
    ¬ hAB.objects.length ≤ (ConcatH hAB [0, 1]).2 ∧
    (ConcatH hAB [0, 1]).1.objects.length = 3 :=
  ⟨rfl, by decide, rfl⟩

/-- C5 amended: no operation mutates its inputs or keeps state: every
call only extends the heap with freshly allocated engine objects,
leaving every existing object unchanged at its identifier; every
operation except `Concat` returns a freshly allocated object (its
identifier is at least the pre-call heap size), while `Concat` returns
its first input object unchanged. -/
theorem ops_preserve_heap_objects :
    ∀ (h : Heap) (generator datas map_func : Nat) (output_types : List Nat)
      (column_names : Option (List Nat)) (dataset : ObjId)
      (datasets : List ObjId) (batch_size buffer_size shuffle_buffer_size : Int)
      (count : Option Int) (shuffle drop_last : Bool),
      (heapExtends h (FromGeneratorH h generator output_types column_names).1 ∧
        h.objects.length ≤ (FromGeneratorH h generator output_types column_names).2) ∧
      (heapExtends h (FromSlicesH h datas column_names).1 ∧
        h.objects.length ≤ (FromSlicesH h datas column_names).2) ∧
      (heapExtends h (BatchH h dataset batch_size drop_last).1 ∧
        h.objects.length ≤ (BatchH h dataset batch_size drop_last).2) ∧
      (heapExtends h (MapH h dataset map_func column_names).1 ∧
        h.objects.length ≤ (MapH h dataset map_func column_names).2) ∧
      (heapExtends h (RepeatH h dataset count).1 ∧
        h.objects.length ≤ (RepeatH h dataset count).2) ∧
      (heapExtends h (ShuffleH h dataset buffer_size).1 ∧
        h.objects.length ≤ (ShuffleH h dataset buffer_size).2) ∧
      (heapExtends h (ZipH h datasets).1 ∧
        h.objects.length ≤ (ZipH h datasets).2) ∧
      (heapExtends h (ConcatH h datasets).1 ∧
        (ConcatH h datasets).2 = datasets.getD 0 0) ∧
      (heapExtends h
          (DataloaderH h dataset batch_size shuffle drop_last shuffle_buffer_size).1 ∧
        h.objects.length ≤
          (DataloaderH h dataset batch_size shuffle drop_last shuffle_buffer_size).2) := by
  intro h generator datas map_func output_types column_names dataset datasets
    batch_size buffer_size shuffle_buffer_size count shuffle drop_last
  refine ⟨⟨alloc_extends _ _, le_refl _⟩, ⟨alloc_extends _ _, le_refl _⟩,
    ⟨alloc_extends _ _, le_refl _⟩, ⟨alloc_extends _ _, le_refl _⟩,
    ⟨alloc_extends _ _, le_refl _⟩, ⟨alloc_extends _ _, le_refl _⟩,
    ⟨alloc_extends _ _, le_refl _⟩, ⟨?_, rfl⟩, ?_, ?_⟩
  · exact foldl_alloc_extends _ (fun hh a => alloc_extends hh _)
      (List.range' 1 (datasets.length - 1)) h
  · cases shuffle with
    | false => exact heapExtends_trans (alloc_extends _ _) (alloc_extends _ _)
    | true =>
      exact heapExtends_trans (alloc_extends _ _)
        (heapExtends_trans (alloc_extends _ _) (alloc_extends _ _))
  · cases shuffle with
    | false => exact (alloc_extends _ _).1
    | true =>
      exact le_trans (alloc_extends _ _).1
        ((alloc_extends _ _).1 :
          ((h.alloc (TFDataset.shuffle (h.read dataset) shuffle_buffer_size
            none true)).1).objects.length ≤ _)
